import Mathlib

/-!
Verification of the `utils` module of the irrevolutions repository
(`src/utils/__init__.py`): the `ColorPrint` rank-gated console printer,
the `setup_logger_mpi` structured-logger configuration, and
`ResultsStorage.store_results`, which persists parameters, a mesh+field
archive, and a JSON time series.

The Python code is shallowly embedded: each operation is modelled as a
pure Lean function from its inputs (including the MPI rank of the calling
process) to the trace of I/O events it performs, together with an
optional Python-level error for the fallible paths.  Python dictionaries
are association lists with first-match lookup, `d[k]` raising `KeyError`
when the key is absent and `xs[-1]` raising `IndexError` on an empty
sequence, exactly as in the source.
-/

set_option autoImplicit false

/-- A finite-element function space, identified by the mesh (spatial
domain) it is defined over; `store_results` only ever reads
`u.function_space.mesh`, so the mesh identifier is all the embedding
needs. -/
structure FunctionSpace where
  mesh : Nat
  deriving DecidableEq, Repr

/-- A finite-element field object as passed in `state`; `fid` is the
identity of the underlying function data (distinct fields are distinct
objects), `function_space` its queryable space. -/
structure FEField where
  fid : Nat
  function_space : FunctionSpace
  deriving DecidableEq, Repr

/-- Scalar samples of the history series (the `load` values) and the
time tags derived from them. -/
abbrev Sample := Rat

/-- Nested parameter values: scalars, sequences and string-keyed
mappings, as produced by the YAML configuration. -/
inductive PVal where
  | int (n : Int)
  | str (s : String)
  | seq (xs : List PVal)
  | map (kvs : List (String × PVal))

/-- A history record: an association list from series names to ordered
numeric samples (the Python dict `history_data`). -/
abbrev HistoryData := List (String × List Sample)

/-- A simulation state: an association list from field names to field
objects (the Python dict `state`). -/
abbrev SimState := List (String × FEField)

/-- One observable write event performed by `store_results`:
a rank-local text-file write (the YAML parameter dump or the JSON time
series), or one of the collective XDMF archive operations. -/
inductive WriteEv where
  | writeTextFile (path : String) (content : String)
  | openArchive (path : String)
  | writeMesh (mesh : Nat)
  | writeFunction (f : FEField) (t : Sample)
  deriving DecidableEq, Repr

/-- Python-level errors raised by the dictionary and sequence accesses
in `store_results`. -/
inductive PyError where
  | keyError (k : String)
  | indexError
  deriving DecidableEq, Repr

/-- The `ResultsStorage` object: it stores the communicator (of which
only the rank is read) and the output prefix. -/
structure ResultsStorage where
  comm_rank : Nat
  pfx : String

/-- Embedding of `ResultsStorage.store_results(parameters, history_data,
state)`.  `yamlDump` and `jsonDump` are the external serializers
(`yaml.dump`, `json.dump`) the method calls.  The result is the list of
write events the calling process performs, in program order, together
with the error the call raises (`none` on success); an error is raised
before any event that textually follows it, so the trace is empty on the
error paths (all accesses precede the first write). -/
def ResultsStorage.store_results (rs : ResultsStorage)
    (yamlDump : PVal → String) (jsonDump : HistoryData → String)
    (parameters : PVal) (history_data : HistoryData) (state : SimState) :
    List WriteEv × Option PyError :=
  match history_data.lookup "load" with
  | none => ([], some (PyError.keyError "load"))
  | some series =>
    match series.getLast? with
    | none => ([], some PyError.indexError)
    | some t =>
      match state.lookup "u" with
      | none => ([], some (PyError.keyError "u"))
      | some u =>
        match state.lookup "alpha" with
        | none => ([], some (PyError.keyError "alpha"))
        | some alpha =>
          ((if rs.comm_rank = 0 then
              [WriteEv.writeTextFile (rs.pfx ++ "/parameters.yaml") (yamlDump parameters)]
            else [])
            ++ [WriteEv.openArchive (rs.pfx ++ "/simulation_results.xdmf"),
                WriteEv.writeMesh u.function_space.mesh,
                WriteEv.writeFunction u t,
                WriteEv.writeFunction alpha t]
            ++ (if rs.comm_rank = 0 then
                  [WriteEv.writeTextFile (rs.pfx ++ "/time_data.json") (jsonDump history_data)]
                else []),
            none)

/-- Does this event write the text file at `path`? -/
def WriteEv.writesTo (path : String) : WriteEv → Bool
  | WriteEv.writeTextFile p _ => p = path
  | _ => false

/-- Is this event one of the collective archive operations (performed
through the distributed XDMF I/O layer)? -/
def WriteEv.isCollective : WriteEv → Bool
  | WriteEv.writeTextFile _ _ => false
  | _ => true

/-- Is this event the mesh write? -/
def WriteEv.isWriteMesh : WriteEv → Bool
  | WriteEv.writeMesh _ => true
  | _ => false

/-- Is this event a field write? -/
def WriteEv.isFieldWrite : WriteEv → Bool
  | WriteEv.writeFunction _ _ => true
  | _ => false

/-- The collective sub-trace of a trace. -/
def collectiveEvents (tr : List WriteEv) : List WriteEv :=
  tr.filter WriteEv.isCollective

/-- Content of the text file at `path` after replaying the trace (last
write to the path wins); `none` when the trace never writes it. -/
def fileContent (tr : List WriteEv) (path : String) : Option String :=
  tr.foldl
    (fun acc e =>
      match e with
      | WriteEv.writeTextFile p c => if p = path then some c else acc
      | _ => acc)
    none

/-- Python's `str.strip()`: remove leading and trailing whitespace
characters.  Defined by structural recursion over the character list so
that concrete instances evaluate inside the kernel. -/
def pyStrip (s : String) : String :=
  String.mk (((s.data.dropWhile Char.isWhitespace).reverse.dropWhile Char.isWhitespace).reverse)

/-- A console stream: standard output or standard error. -/
inductive CStream where
  | stdout
  | stderr
  deriving DecidableEq, Repr

/-- One console I/O event performed by a `ColorPrint` method: a raw
write of `text` to a stream, or a flush of a stream. -/
inductive ConsoleEv where
  | cwrite (s : CStream) (text : String)
  | cflush (s : CStream)
  deriving DecidableEq, Repr

namespace ColorPrint

/-- Embedding of `ColorPrint.print_fail(message, end)`: on rank 0 it
writes the stripped message wrapped in bold red to standard error and
flushes; on every other rank it does nothing.  Python's `str.strip()`
is modelled by `pyStrip`. -/
def print_fail (rank : Nat) (message : String) (endStr : String) : List ConsoleEv :=
  if rank = 0 then
    [ConsoleEv.cwrite CStream.stderr ("\x1b[1;31m" ++ pyStrip message ++ "\x1b[0m" ++ endStr),
     ConsoleEv.cflush CStream.stderr]
  else []

/-- Embedding of `ColorPrint.print_pass`: bold green to standard
output on rank 0, nothing elsewhere. -/
def print_pass (rank : Nat) (message : String) (endStr : String) : List ConsoleEv :=
  if rank = 0 then
    [ConsoleEv.cwrite CStream.stdout ("\x1b[1;32m" ++ pyStrip message ++ "\x1b[0m" ++ endStr),
     ConsoleEv.cflush CStream.stdout]
  else []

/-- Embedding of `ColorPrint.print_warn`: bold yellow to standard
error on rank 0, nothing elsewhere. -/
def print_warn (rank : Nat) (message : String) (endStr : String) : List ConsoleEv :=
  if rank = 0 then
    [ConsoleEv.cwrite CStream.stderr ("\x1b[1;33m" ++ pyStrip message ++ "\x1b[0m" ++ endStr),
     ConsoleEv.cflush CStream.stderr]
  else []

/-- Embedding of `ColorPrint.print_info`: bold blue to standard output
on rank 0, nothing elsewhere. -/
def print_info (rank : Nat) (message : String) (endStr : String) : List ConsoleEv :=
  if rank = 0 then
    [ConsoleEv.cwrite CStream.stdout ("\x1b[1;34m" ++ pyStrip message ++ "\x1b[0m" ++ endStr),
     ConsoleEv.cflush CStream.stdout]
  else []

/-- Embedding of `ColorPrint.print_color`: bold cyan to standard
output on rank 0, nothing elsewhere. -/
def print_color (rank : Nat) (message : String) (endStr : String) : List ConsoleEv :=
  if rank = 0 then
    [ConsoleEv.cwrite CStream.stdout ("\x1b[1;36m" ++ pyStrip message ++ "\x1b[0m" ++ endStr),
     ConsoleEv.cflush CStream.stdout]
  else []

/-- Embedding of `ColorPrint.print_bold`: bold white to standard
output on rank 0, nothing elsewhere. -/
def print_bold (rank : Nat) (message : String) (endStr : String) : List ConsoleEv :=
  if rank = 0 then
    [ConsoleEv.cwrite CStream.stdout ("\x1b[1;37m" ++ pyStrip message ++ "\x1b[0m" ++ endStr),
     ConsoleEv.cflush CStream.stdout]
  else []

end ColorPrint

/-- The Python `logging` severity constants used by the source. -/
def LOG_INFO : Nat := 20

/-- `logging.CRITICAL`. -/
def LOG_CRITICAL : Nat := 50

/-- The logger configured by `setup_logger_mpi`: the logger-level
threshold and the thresholds of its console and file handlers (all
three are set to INFO on rank 0 and CRITICAL on every other rank). -/
structure MpiLogger where
  level : Nat
  console_level : Nat
  file_level : Nat
  deriving DecidableEq, Repr

/-- Embedding of the configuration performed by
`setup_logger_mpi(root_priority)`: the logger and both handlers are set
to `INFO` if the rank is 0 and to `CRITICAL` otherwise (the
`root_priority` argument is ignored by the source, which uses a local
`root_process_log_level = logging.INFO`). -/
def setup_logger_mpi (rank : Nat) : MpiLogger :=
  { level := if rank = 0 then LOG_INFO else LOG_CRITICAL,
    console_level := if rank = 0 then LOG_INFO else LOG_CRITICAL,
    file_level := if rank = 0 then LOG_INFO else LOG_CRITICAL }

/-- A destination of an emitted log record. -/
inductive LogDest where
  | console
  | logfile
  deriving DecidableEq, Repr

/-- Emission of one message through the configured logger, following
the Python `logging` dispatch: a record reaches a handler exactly when
its severity is at least the logger's level and at least that
handler's level. -/
def MpiLogger.log (lg : MpiLogger) (sev : Nat) (msg : String) : List (LogDest × String) :=
  (if lg.level ≤ sev ∧ lg.console_level ≤ sev then [(LogDest.console, msg)] else [])
    ++ (if lg.level ≤ sev ∧ lg.file_level ≤ sev then [(LogDest.logfile, msg)] else [])

/-- A Python-level exception escaping a logging operation: the only
source of failure in these operations is a failing stream write. -/
inductive PyExc where
  | streamError
  deriving DecidableEq, Repr

/-- Fault-aware embedding of a `ColorPrint` severity method: the body
is a bare `stream.write(...)` with no `try`/`except`, so when the
target stream's `write` raises (modelled by `fails = true`) the
exception propagates to the caller.  On ranks other than 0 the guard
skips the write entirely, so no exception can arise. -/
def printColored_exc (stream : CStream) (pre : String) (rank : Nat) (fails : Bool)
    (message : String) (endStr : String) : Except PyExc (List ConsoleEv) :=
  if rank = 0 then
    if fails then Except.error PyExc.streamError
    else Except.ok [ConsoleEv.cwrite stream (pre ++ pyStrip message ++ "\x1b[0m" ++ endStr),
                    ConsoleEv.cflush stream]
  else Except.ok []

namespace ColorPrint

/-- `print_fail` with a fallible standard-error stream. -/
def print_fail_exc (rank : Nat) (fails : Bool) (message : String) (endStr : String) :
    Except PyExc (List ConsoleEv) :=
  printColored_exc CStream.stderr "\x1b[1;31m" rank fails message endStr

/-- `print_pass` with a fallible standard-output stream. -/
def print_pass_exc (rank : Nat) (fails : Bool) (message : String) (endStr : String) :
    Except PyExc (List ConsoleEv) :=
  printColored_exc CStream.stdout "\x1b[1;32m" rank fails message endStr

/-- `print_warn` with a fallible standard-error stream. -/
def print_warn_exc (rank : Nat) (fails : Bool) (message : String) (endStr : String) :
    Except PyExc (List ConsoleEv) :=
  printColored_exc CStream.stderr "\x1b[1;33m" rank fails message endStr

/-- `print_info` with a fallible standard-output stream. -/
def print_info_exc (rank : Nat) (fails : Bool) (message : String) (endStr : String) :
    Except PyExc (List ConsoleEv) :=
  printColored_exc CStream.stdout "\x1b[1;34m" rank fails message endStr

/-- `print_color` with a fallible standard-output stream. -/
def print_color_exc (rank : Nat) (fails : Bool) (message : String) (endStr : String) :
    Except PyExc (List ConsoleEv) :=
  printColored_exc CStream.stdout "\x1b[1;36m" rank fails message endStr

/-- `print_bold` with a fallible standard-output stream. -/
def print_bold_exc (rank : Nat) (fails : Bool) (message : String) (endStr : String) :
    Except PyExc (List ConsoleEv) :=
  printColored_exc CStream.stdout "\x1b[1;37m" rank fails message endStr

end ColorPrint

/-- Fault-aware emission through the structured logger.  The Python
`logging` framework routes a handler's exception to `handleError`,
which reports it on standard error and returns, so a failing console
or file handler loses its record but never raises to the caller: the
result is always `Except.ok`. -/
def MpiLogger.log_exc (lg : MpiLogger) (consoleFails fileFails : Bool)
    (sev : Nat) (msg : String) : Except PyExc (List (LogDest × String)) :=
  Except.ok
    ((if lg.level ≤ sev ∧ lg.console_level ≤ sev ∧ consoleFails = false
      then [(LogDest.console, msg)] else [])
      ++ (if lg.level ≤ sev ∧ lg.file_level ≤ sev ∧ fileFails = false
          then [(LogDest.logfile, msg)] else []))

/-- Number of writes a trace makes to the text file at `path`. -/
def countWritesTo (tr : List WriteEv) (path : String) : Nat :=
  tr.countP (WriteEv.writesTo path)

/-- Concrete spatial domain shared by the well-formed test fields. -/
def fsMain : FunctionSpace := ⟨0⟩

/-- A second, distinct spatial domain. -/
def fsOther : FunctionSpace := ⟨1⟩

/-- Concrete displacement field on the main domain. -/
def fldU : FEField := ⟨0, fsMain⟩

/-- Concrete damage field on the main domain. -/
def fldAlpha : FEField := ⟨1, fsMain⟩

/-- A third concrete field on the main domain, bound to an extra key. -/
def fldBeta : FEField := ⟨2, fsMain⟩

/-- A concrete field living on the other domain. -/
def fldMis : FEField := ⟨3, fsOther⟩

/-- A concrete YAML serializer stand-in used by closed instances. -/
def ydC : PVal → String := fun _ => "yaml-doc"

/-- A concrete JSON serializer stand-in used by closed instances. -/
def jdC : HistoryData → String := fun _ => "json-doc"

/-- The concrete parameters `{"general": {"dim": 2}}`. -/
def paramsC : PVal := PVal.map [("general", PVal.map [("dim", PVal.int 2)])]

/-- The concrete history `{"load": [0, 1, 2]}`. -/
def histC : HistoryData := [("load", [0, 1, 2])]

/-- The concrete well-formed state `{"u": fldU, "alpha": fldAlpha}`. -/
def stateC : SimState := [("u", fldU), ("alpha", fldAlpha)]

/-- A concrete `ResultsStorage` on the coordinator rank. -/
def rsC : ResultsStorage := ⟨0, "out"⟩

/-! ## Helper lemmas -/

/-- Left-cancellation of string append. -/
theorem str_append_left_cancel {s a b : String} (h : s ++ a = s ++ b) : a = b := by
  apply String.ext
  have hd := congrArg String.data h
  rw [String.data_append, String.data_append] at hd
  exact List.append_cancel_left hd

/-- Append with a common left factor preserves disequality. -/
theorem str_append_ne {a b : String} (s : String) (h : a ≠ b) : s ++ a ≠ s ++ b :=
  fun hc => h (str_append_left_cancel hc)

/-- Summing the rank-0 indicator over ranks `0..N-1` gives 1 once `N ≥ 1`. -/
theorem sum_range_if_zero (N : Nat) (hN : 1 ≤ N) :
    ((List.range N).map (fun r => if r = 0 then 1 else 0)).sum = 1 := by
  induction N with
  | zero => omega
  | succ n ih =>
    rw [List.range_succ, List.map_append, List.sum_append]
    rcases Nat.eq_zero_or_pos n with h0 | hpos
    · subst h0; simp
    · have hn : n ≠ 0 := Nat.pos_iff_ne_zero.mp hpos
      rw [ih hpos]
      simp [hn]

/-- C10: if `history_data` lacks the "load" key, or its "load" series is
empty, `store_results` raises before performing any write: the trace of
performed writes is empty, so no artifact is created or modified by the
call. -/
theorem C10_missing_load_writes_nothing (rs : ResultsStorage)
    (yd : PVal → String) (jd : HistoryData → String)
    (parameters : PVal) (history_data : HistoryData) (state : SimState)
    (h : history_data.lookup "load" = none ∨ history_data.lookup "load" = some []) :
    (rs.store_results yd jd parameters history_data state).1 = [] ∧
    (rs.store_results yd jd parameters history_data state).2 ≠ none := by
  rcases h with h | h <;> simp [ResultsStorage.store_results, h]

/-- C10 witness: a concrete history without a "load" key. -/
theorem C10_missing_load_writes_nothing_witness :
    (([("other", [1])] : HistoryData).lookup "load" = none ∨
      ([("other", [1])] : HistoryData).lookup "load" = some []) ∧
    ((rsC.store_results ydC jdC paramsC [("other", [1])] stateC).1 = [] ∧
     (rsC.store_results ydC jdC paramsC [("other", [1])] stateC).2 ≠ none) :=
  ⟨Or.inl (by decide),
   C10_missing_load_writes_nothing rsC ydC jdC paramsC [("other", [1])] stateC
     (Or.inl (by decide))⟩

/-- C4: on every non-coordinator rank, each ColorPrint severity method
emits no console event at all, and any message of severity below
CRITICAL routed through the logger configured by `setup_logger_mpi`
produces no record at the console handler or the file handler. -/
theorem C4_noncoordinator_silent (r : Nat) (msg endStr : String) (sev : Nat)
    (hr : r ≠ 0) (hsev : sev < LOG_CRITICAL) :
    ColorPrint.print_fail r msg endStr = [] ∧
    ColorPrint.print_pass r msg endStr = [] ∧
    ColorPrint.print_warn r msg endStr = [] ∧
    ColorPrint.print_info r msg endStr = [] ∧
    ColorPrint.print_color r msg endStr = [] ∧
    ColorPrint.print_bold r msg endStr = [] ∧
    (setup_logger_mpi r).log sev msg = [] := by
  have h50 : ¬ (LOG_CRITICAL ≤ sev) := fun hc => Nat.lt_irrefl _ (Nat.lt_of_le_of_lt hc hsev)
  refine ⟨?_, ?_, ?_, ?_, ?_, ?_, ?_⟩ <;>
    simp [ColorPrint.print_fail, ColorPrint.print_pass, ColorPrint.print_warn,
      ColorPrint.print_info, ColorPrint.print_color, ColorPrint.print_bold,
      setup_logger_mpi, MpiLogger.log, hr, h50]

/-- C4 witness: rank 1, an INFO-severity message. -/
theorem C4_noncoordinator_silent_witness :
    ((1 : Nat) ≠ 0 ∧ LOG_INFO < LOG_CRITICAL) ∧
    (ColorPrint.print_fail 1 "m" "\n" = [] ∧
     ColorPrint.print_pass 1 "m" "\n" = [] ∧
     ColorPrint.print_warn 1 "m" "\n" = [] ∧
     ColorPrint.print_info 1 "m" "\n" = [] ∧
     ColorPrint.print_color 1 "m" "\n" = [] ∧
     ColorPrint.print_bold 1 "m" "\n" = [] ∧
     (setup_logger_mpi 1).log LOG_INFO "m" = []) :=
  ⟨⟨by decide, by decide⟩,
   C4_noncoordinator_silent 1 "m" "\n" LOG_INFO (by decide) (by decide)⟩

/-- C5 counterexample: on the coordinator, `print_pass " x "` does not
write the given string wrapped in the green escape prefix/suffix plus
terminator, because the source strips the message first. -/
theorem C5_counterexample :
    ColorPrint.print_pass 0 " x " "\n"
      ≠ [ConsoleEv.cwrite CStream.stdout ("\x1b[1;32m" ++ " x " ++ "\x1b[0m" ++ "\n"),
         ConsoleEv.cflush CStream.stdout] := by decide

/-- C5 (amended): on the coordinator rank, each severity method writes
exactly one string consisting of the given message stripped of leading
and trailing whitespace, wrapped in that severity's color-escape prefix
and suffix plus the terminator, to the correct stream (fail and warn to
standard error, the others to standard output), followed immediately by
a flush of that stream. -/
theorem C5_coordinator_output (msg endStr : String) :
    ColorPrint.print_fail 0 msg endStr =
      [ConsoleEv.cwrite CStream.stderr ("\x1b[1;31m" ++ pyStrip msg ++ "\x1b[0m" ++ endStr),
       ConsoleEv.cflush CStream.stderr] ∧
    ColorPrint.print_pass 0 msg endStr =
      [ConsoleEv.cwrite CStream.stdout ("\x1b[1;32m" ++ pyStrip msg ++ "\x1b[0m" ++ endStr),
       ConsoleEv.cflush CStream.stdout] ∧
    ColorPrint.print_warn 0 msg endStr =
      [ConsoleEv.cwrite CStream.stderr ("\x1b[1;33m" ++ pyStrip msg ++ "\x1b[0m" ++ endStr),
       ConsoleEv.cflush CStream.stderr] ∧
    ColorPrint.print_info 0 msg endStr =
      [ConsoleEv.cwrite CStream.stdout ("\x1b[1;34m" ++ pyStrip msg ++ "\x1b[0m" ++ endStr),
       ConsoleEv.cflush CStream.stdout] ∧
    ColorPrint.print_color 0 msg endStr =
      [ConsoleEv.cwrite CStream.stdout ("\x1b[1;36m" ++ pyStrip msg ++ "\x1b[0m" ++ endStr),
       ConsoleEv.cflush CStream.stdout] ∧
    ColorPrint.print_bold 0 msg endStr =
      [ConsoleEv.cwrite CStream.stdout ("\x1b[1;37m" ++ pyStrip msg ++ "\x1b[0m" ++ endStr),
       ConsoleEv.cflush CStream.stdout] :=
  ⟨rfl, rfl, rfl, rfl, rfl, rfl⟩

/-- A state with an extra field key "beta" beyond the fixed "u"/"alpha". -/
def stateC1 : SimState := [("u", fldU), ("alpha", fldAlpha), ("beta", fldBeta)]

/-- C1 counterexample: with history `{"load": [0,1,2]}` (last value 2)
and state `{"u", "alpha", "beta"}`, the call succeeds but the archive
receives no field entry for the field bound to the key "beta": entries
are written only for the fixed subset of keys "u" and "alpha". -/
theorem C1_counterexample :
    (rsC.store_results ydC jdC paramsC histC stateC1).2 = none ∧
    ¬ (∀ kv ∈ stateC1,
        WriteEv.writeFunction kv.2 2 ∈ (rsC.store_results ydC jdC paramsC histC stateC1).1) := by
  decide

/-- C1 (amended): when `store_results` succeeds with last load value
`t`, the archive receives a field entry tagged with time `t` exactly
for the fields bound to the two fixed keys "u" and "alpha" of the state
mapping, and for no other field. -/
theorem C1_fixed_keys_written (rs : ResultsStorage)
    (yd : PVal → String) (jd : HistoryData → String)
    (parameters : PVal) (history_data : HistoryData) (state : SimState)
    (series : List Sample) (t : Sample) (u alpha : FEField)
    (hl : history_data.lookup "load" = some series)
    (ht : series.getLast? = some t)
    (hu : state.lookup "u" = some u)
    (ha : state.lookup "alpha" = some alpha) :
    (rs.store_results yd jd parameters history_data state).2 = none ∧
    WriteEv.writeFunction u t ∈ (rs.store_results yd jd parameters history_data state).1 ∧
    WriteEv.writeFunction alpha t ∈ (rs.store_results yd jd parameters history_data state).1 ∧
    (∀ f t2, WriteEv.writeFunction f t2 ∈ (rs.store_results yd jd parameters history_data state).1 →
      (f = u ∨ f = alpha) ∧ t2 = t) := by
  simp only [ResultsStorage.store_results, hl, ht, hu, ha]
  by_cases h : rs.comm_rank = 0 <;>
    simp [h] <;> tauto

/-- C1 witness: the coordinator storing the concrete scenario. -/
theorem C1_fixed_keys_written_witness :
    (histC.lookup "load" = some [0, 1, 2] ∧
     ([0, 1, 2] : List Sample).getLast? = some 2 ∧
     stateC.lookup "u" = some fldU ∧
     stateC.lookup "alpha" = some fldAlpha) ∧
    ((rsC.store_results ydC jdC paramsC histC stateC).2 = none ∧
     WriteEv.writeFunction fldU 2 ∈ (rsC.store_results ydC jdC paramsC histC stateC).1 ∧
     WriteEv.writeFunction fldAlpha 2 ∈ (rsC.store_results ydC jdC paramsC histC stateC).1 ∧
     (∀ f t2, WriteEv.writeFunction f t2 ∈ (rsC.store_results ydC jdC paramsC histC stateC).1 →
       (f = fldU ∨ f = fldAlpha) ∧ t2 = 2)) :=
  ⟨⟨by decide, by decide, by decide, by decide⟩,
   C1_fixed_keys_written rsC ydC jdC paramsC histC stateC [0, 1, 2] 2 fldU fldAlpha
     (by decide) (by decide) (by decide) (by decide)⟩

/-- C2: under the preconditions that make the call succeed, the
parameters file and the `time_data.json` file are each written by a
rank exactly when that rank is the coordinator rank 0, and across a
group of `N ≥ 1` cooperating processes each of the two files is
written exactly once in total. -/
theorem C2_rank0_only_file_writes (N : Nat) (pfx : String)
    (yd : PVal → String) (jd : HistoryData → String)
    (parameters : PVal) (history_data : HistoryData) (state : SimState)
    (series : List Sample) (t : Sample) (u alpha : FEField)
    (hl : history_data.lookup "load" = some series)
    (ht : series.getLast? = some t)
    (hu : state.lookup "u" = some u)
    (ha : state.lookup "alpha" = some alpha)
    (hN : 1 ≤ N) :
    (∀ r, countWritesTo
        ((ResultsStorage.mk r pfx).store_results yd jd parameters history_data state).1
        (pfx ++ "/parameters.yaml") = if r = 0 then 1 else 0) ∧
    (∀ r, countWritesTo
        ((ResultsStorage.mk r pfx).store_results yd jd parameters history_data state).1
        (pfx ++ "/time_data.json") = if r = 0 then 1 else 0) ∧
    ((List.range N).map (fun r => countWritesTo
        ((ResultsStorage.mk r pfx).store_results yd jd parameters history_data state).1
        (pfx ++ "/parameters.yaml"))).sum = 1 ∧
    ((List.range N).map (fun r => countWritesTo
        ((ResultsStorage.mk r pfx).store_results yd jd parameters history_data state).1
        (pfx ++ "/time_data.json"))).sum = 1 := by
  have hne : ("/time_data.json" : String) ≠ "/parameters.yaml" := by decide
  have hpy : pfx ++ "/time_data.json" ≠ pfx ++ "/parameters.yaml" := str_append_ne pfx hne
  have hyp : pfx ++ "/parameters.yaml" ≠ pfx ++ "/time_data.json" := fun hc => hpy hc.symm
  have hpar : ∀ r, countWritesTo
      ((ResultsStorage.mk r pfx).store_results yd jd parameters history_data state).1
      (pfx ++ "/parameters.yaml") = if r = 0 then 1 else 0 := by
    intro r
    simp only [ResultsStorage.store_results, hl, ht, hu, ha]
    by_cases h : r = 0 <;>
      simp [h, countWritesTo, List.countP_cons, WriteEv.writesTo, hpy]
  have hjson : ∀ r, countWritesTo
      ((ResultsStorage.mk r pfx).store_results yd jd parameters history_data state).1
      (pfx ++ "/time_data.json") = if r = 0 then 1 else 0 := by
    intro r
    simp only [ResultsStorage.store_results, hl, ht, hu, ha]
    by_cases h : r = 0 <;>
      simp [h, countWritesTo, List.countP_cons, WriteEv.writesTo, hyp]
  refine ⟨hpar, hjson, ?_, ?_⟩
  · rw [List.map_congr_left (fun r _ => hpar r)]
    exact sum_range_if_zero N hN
  · rw [List.map_congr_left (fun r _ => hjson r)]
    exact sum_range_if_zero N hN

/-- C2 witness: two cooperating processes storing the concrete scenario. -/
theorem C2_rank0_only_file_writes_witness :
    (histC.lookup "load" = some [0, 1, 2] ∧
     ([0, 1, 2] : List Sample).getLast? = some 2 ∧
     stateC.lookup "u" = some fldU ∧
     stateC.lookup "alpha" = some fldAlpha ∧
     1 ≤ 2) ∧
    ((∀ r, countWritesTo
        ((ResultsStorage.mk r "out").store_results ydC jdC paramsC histC stateC).1
        ("out" ++ "/parameters.yaml") = if r = 0 then 1 else 0) ∧
     (∀ r, countWritesTo
        ((ResultsStorage.mk r "out").store_results ydC jdC paramsC histC stateC).1
        ("out" ++ "/time_data.json") = if r = 0 then 1 else 0) ∧
     ((List.range 2).map (fun r => countWritesTo
        ((ResultsStorage.mk r "out").store_results ydC jdC paramsC histC stateC).1
        ("out" ++ "/parameters.yaml"))).sum = 1 ∧
     ((List.range 2).map (fun r => countWritesTo
        ((ResultsStorage.mk r "out").store_results ydC jdC paramsC histC stateC).1
        ("out" ++ "/time_data.json"))).sum = 1) :=
  ⟨⟨by decide, by decide, by decide, by decide, by decide⟩,
   C2_rank0_only_file_writes 2 "out" ydC jdC paramsC histC stateC [0, 1, 2] 2 fldU fldAlpha
     (by decide) (by decide) (by decide) (by decide) (by decide)⟩

/-- C3: the collective archive open-and-write step of `store_results`
is identical on every rank: the collective sub-trace of any rank equals
that of the coordinator, the error outcome is rank-independent, and on
every successful call every rank performs the archive-open event — no
rank skips the collective call or makes it conditional on rank. -/
theorem C3_collective_unconditional (r : Nat) (pfx : String)
    (yd : PVal → String) (jd : HistoryData → String)
    (parameters : PVal) (history_data : HistoryData) (state : SimState) :
    collectiveEvents
        ((ResultsStorage.mk r pfx).store_results yd jd parameters history_data state).1
      = collectiveEvents
        ((ResultsStorage.mk 0 pfx).store_results yd jd parameters history_data state).1 ∧
    ((ResultsStorage.mk r pfx).store_results yd jd parameters history_data state).2
      = ((ResultsStorage.mk 0 pfx).store_results yd jd parameters history_data state).2 ∧
    (((ResultsStorage.mk r pfx).store_results yd jd parameters history_data state).2 = none →
      WriteEv.openArchive (pfx ++ "/simulation_results.xdmf")
        ∈ ((ResultsStorage.mk r pfx).store_results yd jd parameters history_data state).1) := by
  rcases hl : history_data.lookup "load" with _ | series
  · simp [ResultsStorage.store_results, hl]
  · rcases ht : series.getLast? with _ | t
    · simp [ResultsStorage.store_results, hl, ht]
    · rcases hu : state.lookup "u" with _ | u
      · simp [ResultsStorage.store_results, hl, ht, hu]
      · rcases ha : state.lookup "alpha" with _ | alpha
        · simp [ResultsStorage.store_results, hl, ht, hu, ha]
        · by_cases h : r = 0 <;>
            simp [ResultsStorage.store_results, hl, ht, hu, ha, h,
              collectiveEvents, WriteEv.isCollective]

/-- C3 witness: rank 1 next to the coordinator on the concrete scenario. -/
theorem C3_collective_unconditional_witness :
    (collectiveEvents
        ((ResultsStorage.mk 1 "out").store_results ydC jdC paramsC histC stateC).1
      = collectiveEvents
        ((ResultsStorage.mk 0 "out").store_results ydC jdC paramsC histC stateC).1) ∧
    (((ResultsStorage.mk 1 "out").store_results ydC jdC paramsC histC stateC).2
      = ((ResultsStorage.mk 0 "out").store_results ydC jdC paramsC histC stateC).2) ∧
    (((ResultsStorage.mk 1 "out").store_results ydC jdC paramsC histC stateC).2 = none) ∧
    (WriteEv.openArchive ("out" ++ "/simulation_results.xdmf")
      ∈ ((ResultsStorage.mk 1 "out").store_results ydC jdC paramsC histC stateC).1) :=
  ⟨(C3_collective_unconditional 1 "out" ydC jdC paramsC histC stateC).1,
   (C3_collective_unconditional 1 "out" ydC jdC paramsC histC stateC).2.1,
   by decide,
   (C3_collective_unconditional 1 "out" ydC jdC paramsC histC stateC).2.2 (by decide)⟩

/-- C6: on every successful call of `store_results` the shared spatial
domain is written to the archive exactly once, every field write occurs
after the mesh write, and every field write is tagged with the
checkpoint label taken from the last entry of the "load" series. -/
theorem C6_mesh_once_then_fields (rs : ResultsStorage)
    (yd : PVal → String) (jd : HistoryData → String)
    (parameters : PVal) (history_data : HistoryData) (state : SimState)
    (series : List Sample) (t : Sample) (u alpha : FEField)
    (hl : history_data.lookup "load" = some series)
    (ht : series.getLast? = some t)
    (hu : state.lookup "u" = some u)
    (ha : state.lookup "alpha" = some alpha) :
    ∃ pre post,
      (rs.store_results yd jd parameters history_data state).1
        = pre ++ WriteEv.writeMesh u.function_space.mesh :: post ∧
      (∀ e ∈ pre, e.isWriteMesh = false ∧ e.isFieldWrite = false) ∧
      (∀ e ∈ post, e.isWriteMesh = false) ∧
      (∀ f t2, WriteEv.writeFunction f t2
          ∈ (rs.store_results yd jd parameters history_data state).1 → t2 = t) := by
  refine ⟨(if rs.comm_rank = 0 then
        [WriteEv.writeTextFile (rs.pfx ++ "/parameters.yaml") (yd parameters)] else [])
      ++ [WriteEv.openArchive (rs.pfx ++ "/simulation_results.xdmf")],
    [WriteEv.writeFunction u t, WriteEv.writeFunction alpha t]
      ++ (if rs.comm_rank = 0 then
            [WriteEv.writeTextFile (rs.pfx ++ "/time_data.json") (jd history_data)] else []),
    ?_, ?_, ?_, ?_⟩
  · simp only [ResultsStorage.store_results, hl, ht, hu, ha]
    by_cases h : rs.comm_rank = 0 <;> simp [h]
  · by_cases h : rs.comm_rank = 0 <;>
      simp [h, WriteEv.isWriteMesh, WriteEv.isFieldWrite]
  · by_cases h : rs.comm_rank = 0 <;> simp [h, WriteEv.isWriteMesh]
  · simp only [ResultsStorage.store_results, hl, ht, hu, ha]
    by_cases h : rs.comm_rank = 0 <;> simp [h] <;> tauto

/-- C6 witness: the coordinator storing the concrete scenario. -/
theorem C6_mesh_once_then_fields_witness :
    (histC.lookup "load" = some [0, 1, 2] ∧
     ([0, 1, 2] : List Sample).getLast? = some 2 ∧
     stateC.lookup "u" = some fldU ∧
     stateC.lookup "alpha" = some fldAlpha) ∧
    (∃ pre post,
      (rsC.store_results ydC jdC paramsC histC stateC).1
        = pre ++ WriteEv.writeMesh fldU.function_space.mesh :: post ∧
      (∀ e ∈ pre, e.isWriteMesh = false ∧ e.isFieldWrite = false) ∧
      (∀ e ∈ post, e.isWriteMesh = false) ∧
      (∀ f t2, WriteEv.writeFunction f t2
          ∈ (rsC.store_results ydC jdC paramsC histC stateC).1 → t2 = 2)) :=
  ⟨⟨by decide, by decide, by decide, by decide⟩,
   C6_mesh_once_then_fields rsC ydC jdC paramsC histC stateC [0, 1, 2] 2 fldU fldAlpha
     (by decide) (by decide) (by decide) (by decide)⟩

/-- A state whose two fields live on different spatial domains. -/
def stateC7 : SimState := [("u", fldU), ("alpha", fldMis)]

/-- C7 counterexample: called with fields on two different domains, the
source raises no validation error and does write: the call succeeds and
its trace is non-empty, refuting "raises and writes nothing". -/
theorem C7_counterexample :
    fldU.function_space.mesh ≠ fldMis.function_space.mesh ∧
    (rsC.store_results ydC jdC paramsC histC stateC7).2 = none ∧
    (rsC.store_results ydC jdC paramsC histC stateC7).1 ≠ [] := by decide

/-- C7 (amended): `store_results` performs no domain validation: when
the fields bound to "u" and "alpha" live on different spatial domains
the call still succeeds, writes the domain of the "u" field as the
archive mesh (never the domain of "alpha"), and writes the "alpha"
field against that foreign mesh. -/
theorem C7_no_domain_validation (rs : ResultsStorage)
    (yd : PVal → String) (jd : HistoryData → String)
    (parameters : PVal) (history_data : HistoryData) (state : SimState)
    (series : List Sample) (t : Sample) (u alpha : FEField)
    (hl : history_data.lookup "load" = some series)
    (ht : series.getLast? = some t)
    (hu : state.lookup "u" = some u)
    (ha : state.lookup "alpha" = some alpha)
    (hdom : u.function_space.mesh ≠ alpha.function_space.mesh) :
    (rs.store_results yd jd parameters history_data state).2 = none ∧
    WriteEv.writeMesh u.function_space.mesh
      ∈ (rs.store_results yd jd parameters history_data state).1 ∧
    WriteEv.writeMesh alpha.function_space.mesh
      ∉ (rs.store_results yd jd parameters history_data state).1 ∧
    WriteEv.writeFunction alpha t
      ∈ (rs.store_results yd jd parameters history_data state).1 := by
  have hdom2 : alpha.function_space.mesh ≠ u.function_space.mesh := Ne.symm hdom
  simp only [ResultsStorage.store_results, hl, ht, hu, ha]
  by_cases h : rs.comm_rank = 0 <;> simp [h, hdom2]

/-- C7 witness: the coordinator storing the mismatched-domain state. -/
theorem C7_no_domain_validation_witness :
    (histC.lookup "load" = some [0, 1, 2] ∧
     ([0, 1, 2] : List Sample).getLast? = some 2 ∧
     stateC7.lookup "u" = some fldU ∧
     stateC7.lookup "alpha" = some fldMis ∧
     fldU.function_space.mesh ≠ fldMis.function_space.mesh) ∧
    ((rsC.store_results ydC jdC paramsC histC stateC7).2 = none ∧
     WriteEv.writeMesh fldU.function_space.mesh
       ∈ (rsC.store_results ydC jdC paramsC histC stateC7).1 ∧
     WriteEv.writeMesh fldMis.function_space.mesh
       ∉ (rsC.store_results ydC jdC paramsC histC stateC7).1 ∧
     WriteEv.writeFunction fldMis 2
       ∈ (rsC.store_results ydC jdC paramsC histC stateC7).1) :=
  ⟨⟨by decide, by decide, by decide, by decide, by decide⟩,
   C7_no_domain_validation rsC ydC jdC paramsC histC stateC7 [0, 1, 2] 2 fldU fldMis
     (by decide) (by decide) (by decide) (by decide) (by decide)⟩

/-- C8 counterexample: on the coordinator with a failing standard-error
stream, `print_fail` propagates the stream exception to the caller
instead of swallowing it, refuting "never raise" for the logging
operations. -/
theorem C8_counterexample :
    ColorPrint.print_fail_exc 0 true "boom" "\n" = Except.error PyExc.streamError := rfl

/-- C8 (amended): on non-coordinator ranks the ColorPrint methods never
raise (they perform no I/O at all), and structured-logger calls never
raise on any rank because the logging framework swallows handler
failures; but on the coordinator each ColorPrint method propagates a
failing stream write to the caller. -/
theorem C8_exception_policy (r : Nat) (fails cf ff : Bool) (msg endStr : String) (sev : Nat) :
    (r ≠ 0 →
      ColorPrint.print_fail_exc r fails msg endStr = Except.ok [] ∧
      ColorPrint.print_pass_exc r fails msg endStr = Except.ok [] ∧
      ColorPrint.print_warn_exc r fails msg endStr = Except.ok [] ∧
      ColorPrint.print_info_exc r fails msg endStr = Except.ok [] ∧
      ColorPrint.print_color_exc r fails msg endStr = Except.ok [] ∧
      ColorPrint.print_bold_exc r fails msg endStr = Except.ok []) ∧
    (∃ recs, (setup_logger_mpi r).log_exc cf ff sev msg = Except.ok recs) ∧
    (ColorPrint.print_fail_exc 0 true msg endStr = Except.error PyExc.streamError ∧
     ColorPrint.print_pass_exc 0 true msg endStr = Except.error PyExc.streamError ∧
     ColorPrint.print_warn_exc 0 true msg endStr = Except.error PyExc.streamError ∧
     ColorPrint.print_info_exc 0 true msg endStr = Except.error PyExc.streamError ∧
     ColorPrint.print_color_exc 0 true msg endStr = Except.error PyExc.streamError ∧
     ColorPrint.print_bold_exc 0 true msg endStr = Except.error PyExc.streamError) := by
  refine ⟨fun hr => ?_, ⟨_, rfl⟩, rfl, rfl, rfl, rfl, rfl, rfl⟩
  refine ⟨?_, ?_, ?_, ?_, ?_, ?_⟩ <;>
    simp [ColorPrint.print_fail_exc, ColorPrint.print_pass_exc, ColorPrint.print_warn_exc,
      ColorPrint.print_info_exc, ColorPrint.print_color_exc, ColorPrint.print_bold_exc,
      printColored_exc, hr]

/-- C8 witness: rank 1 with broken streams, INFO severity. -/
theorem C8_exception_policy_witness :
    (1 : Nat) ≠ 0 ∧
    ((ColorPrint.print_fail_exc 1 true "m" "\n" = Except.ok [] ∧
      ColorPrint.print_pass_exc 1 true "m" "\n" = Except.ok [] ∧
      ColorPrint.print_warn_exc 1 true "m" "\n" = Except.ok [] ∧
      ColorPrint.print_info_exc 1 true "m" "\n" = Except.ok [] ∧
      ColorPrint.print_color_exc 1 true "m" "\n" = Except.ok [] ∧
      ColorPrint.print_bold_exc 1 true "m" "\n" = Except.ok []) ∧
     (∃ recs, (setup_logger_mpi 1).log_exc true true LOG_INFO "m" = Except.ok recs) ∧
     (ColorPrint.print_fail_exc 0 true "m" "\n" = Except.error PyExc.streamError ∧
      ColorPrint.print_pass_exc 0 true "m" "\n" = Except.error PyExc.streamError ∧
      ColorPrint.print_warn_exc 0 true "m" "\n" = Except.error PyExc.streamError ∧
      ColorPrint.print_info_exc 0 true "m" "\n" = Except.error PyExc.streamError ∧
      ColorPrint.print_color_exc 0 true "m" "\n" = Except.error PyExc.streamError ∧
      ColorPrint.print_bold_exc 0 true "m" "\n" = Except.error PyExc.streamError)) :=
  ⟨by decide,
   ⟨(C8_exception_policy 1 true true true "m" "\n" LOG_INFO).1 (by decide),
    (C8_exception_policy 1 true true true "m" "\n" LOG_INFO).2.1,
    (C8_exception_policy 1 true true true "m" "\n" LOG_INFO).2.2⟩⟩

/-- C9: given serializers for which deserialization inverts
serialization on the given parameters mapping (the documented behavior
of the external YAML library on simple scalar, mapping and sequence
values), the parameters file produced by a successful coordinator call
of `store_results` deserializes to a value structurally equal to the
original parameters: the method writes exactly the serialized form of
`parameters` to `<pfx>/parameters.yaml`, and the later `time_data.json`
write does not disturb it. -/
theorem C9_parameters_roundtrip (pfx : String)
    (yd : PVal → String) (yload : String → PVal) (jd : HistoryData → String)
    (parameters : PVal) (history_data : HistoryData) (state : SimState)
    (series : List Sample) (t : Sample) (u alpha : FEField)
    (hl : history_data.lookup "load" = some series)
    (ht : series.getLast? = some t)
    (hu : state.lookup "u" = some u)
    (ha : state.lookup "alpha" = some alpha)
    (hrt : yload (yd parameters) = parameters) :
    Option.map yload
        (fileContent
          ((ResultsStorage.mk 0 pfx).store_results yd jd parameters history_data state).1
          (pfx ++ "/parameters.yaml"))
      = some parameters := by
  have hne : pfx ++ "/time_data.json" ≠ pfx ++ "/parameters.yaml" :=
    str_append_ne pfx (by decide)
  simp only [ResultsStorage.store_results, hl, ht, hu, ha]
  simp [fileContent, hne, hrt]

/-- The deserializer stand-in matching `ydC` on `paramsC`. -/
def yloadC : String → PVal := fun _ => paramsC

/-- C9 witness: the coordinator storing the concrete parameters with a
codec pair that inverts on them. -/
theorem C9_parameters_roundtrip_witness :
    (histC.lookup "load" = some [0, 1, 2] ∧
     ([0, 1, 2] : List Sample).getLast? = some 2 ∧
     stateC.lookup "u" = some fldU ∧
     stateC.lookup "alpha" = some fldAlpha ∧
     yloadC (ydC paramsC) = paramsC) ∧
    Option.map yloadC
        (fileContent
          ((ResultsStorage.mk 0 "out").store_results ydC jdC paramsC histC stateC).1
          ("out" ++ "/parameters.yaml"))
      = some paramsC :=
  ⟨⟨by decide, by decide, by decide, by decide, rfl⟩,
   C9_parameters_roundtrip "out" ydC yloadC jdC paramsC histC stateC [0, 1, 2] 2 fldU fldAlpha
     (by decide) (by decide) (by decide) (by decide) rfl⟩
